import Mathlib

/-!
Verification development for the `agent-browser-plugin` session-lifecycle
manager (`src/index.ts`).  The TypeScript source is shallowly embedded:
the process-wide mutable state (the `sessions` map, the dispatch/launch
side effects, the background reaper timer) becomes an explicit `World`
record threaded through every operation, and the opaque external
collaborators (the automation engine, the ffmpeg transcoder, the R2
upload client, the clock) are modelled by an `Env` record of inputs that
the environment supplies during one tool invocation.

Side effects that the specification talks about (engine launches,
command-envelope dispatches, teardown attempts, transcoder invocations,
upload invocations) are recorded in append-only instrumentation logs
inside `World`; the registry itself is an insertion-ordered association
list, matching JavaScript `Map` semantics (`set` on an existing key
updates in place, on a new key appends; `delete` removes the entry).
-/

namespace AgentBrowser

/-- Mirrors `interface PluginConfig`'s `r2` member: `{accountId, bucket,
publicDomain?}`. -/
structure R2Config where
  accountId : String
  bucket : String
  publicDomain : Option String
deriving DecidableEq

/-- Mirrors `interface PluginConfig`'s `gif` member: `{enabled: boolean}`. -/
structure GifConfig where
  enabled : Bool
deriving DecidableEq

/-- Mirrors `interface PluginConfig` (src/index.ts lines 583-595); the
`video` member is dead configuration (never read on any executed path)
and is omitted. -/
structure PluginConfig where
  r2 : Option R2Config
  headless : Option Bool
  viewportWidth : Option Nat
  viewportHeight : Option Nat
  gif : Option GifConfig
  maxConcurrent : Option Nat
  idleTimeoutMs : Option Nat
deriving DecidableEq

/-- Mirrors `interface SessionState` (src/index.ts lines 597-602).  The
opaque `BrowserManager` engine handle is identified by the Nat issued at
its construction. -/
structure SessionState where
  browserId : Nat
  lastActivity : Nat
  recording : Bool
  recordingPath : Option String
deriving DecidableEq

/-- A command envelope handed to `executeCommand`: the `action` tag plus
the only parameter any claim inspects (`path`).  The `id` correlation
field (`Date.now().toString()`) carries no behaviour and is omitted. -/
structure Envelope where
  action : String
  path : Option String
deriving DecidableEq

/-- Hard failures thrown out of a tool invocation:
`maxConcurrent n` is `throw new Error("Max concurrent sessions (n) reached")`
(src/index.ts line 647); `launchFailed` is a rejection of
`browser.launch`; `dispatchFailed a` is a rejection of
`executeCommand` for the envelope with action tag `a`. -/
inductive HardError where
  | maxConcurrent (limit : Nat)
  | launchFailed
  | dispatchFailed (action : String)
deriving DecidableEq

/-- The process-wide mutable state plus instrumentation logs.
`sessions` embeds the `Map` from src/index.ts line 605; `nextHandle`
issues identities for `new BrowserManager()`; `launches` records the
session name on behalf of which each engine handle was constructed and
launched; `dispatches` records every envelope handed to
`executeCommand`; `teardowns` records every `session.browser.close()`
attempt made by the cleanup service; `transcodes` records every
`convertToGif(input, output)` invocation; `uploadCalls` records every
`uploadToR2(localPath, remoteName, contentType)` invocation;
`reaperTimerActive` is true while the `setInterval` timer registered by
the cleanup service's `start` hook is armed (its handle is discarded by
the source, and no `clearInterval` call exists anywhere in it). -/
structure World where
  sessions : List (String × SessionState)
  nextHandle : Nat
  launches : List String
  dispatches : List Envelope
  teardowns : List String
  transcodes : List (String × String)
  uploadCalls : List (Option String × String × String)
  reaperTimerActive : Bool
deriving DecidableEq

/-- The inputs the external collaborators supply during one invocation:
the clock (`Date.now()`), the temp directory, whether `executeCommand`
rejects for a given action tag, whether `browser.launch` rejects, the
`recording_stop` result's `data?.path` and `data?.frames`, whether the
ffmpeg `convertToGif` subprocess exits zero, and whether the S3 client
was initialized (`s3Client !== null`). -/
structure Env where
  now : Nat
  tmpDir : String
  engineFails : String → Bool
  launchFails : Bool
  stopPath : Option String
  stopFrames : Option Nat
  gifOk : Bool
  s3Present : Bool

/-- `Map.get`: first (and, for a genuine `Map`, only) binding of a key. -/
def mapGet : List (String × SessionState) → String → Option SessionState
  | [], _ => none
  | (k, v) :: rest, name => if k = name then some v else mapGet rest name

/-- `Map.set`: update an existing binding in place, else append. -/
def mapSet : List (String × SessionState) → String → SessionState → List (String × SessionState)
  | [], name, v => [(name, v)]
  | (k, w) :: rest, name, v =>
      if k = name then (k, v) :: rest else (k, w) :: mapSet rest name v

/-- `Map.delete`: remove the binding of a key. -/
def mapDelete : List (String × SessionState) → String → List (String × SessionState)
  | [], _ => []
  | (k, v) :: rest, name =>
      if k = name then mapDelete rest name else (k, v) :: mapDelete rest name

/-- `config.maxConcurrent ?? 3`. -/
def maxConc (cfg : PluginConfig) : Nat := cfg.maxConcurrent.getD 3

/-- `getSession` (src/index.ts lines 638-668): return the existing
session after refreshing `lastActivity`, or admission-check, construct
and launch a fresh engine handle, and register the new session.  On the
capacity path nothing is constructed; on a launch rejection the handle
was constructed (logged) but no session is registered. -/
def getSession (sessionName : String) (cfg : PluginConfig) (env : Env) (w : World) :
    Except HardError SessionState × World :=
  match mapGet w.sessions sessionName with
  | some s =>
      let s2 : SessionState := { s with lastActivity := env.now }
      (Except.ok s2, { w with sessions := mapSet w.sessions sessionName s2 })
  | none =>
      if w.sessions.length ≥ maxConc cfg then
        (Except.error (HardError.maxConcurrent (maxConc cfg)), w)
      else
        let h := w.nextHandle
        let w1 := { w with nextHandle := h + 1, launches := w.launches ++ [sessionName] }
        if env.launchFails then
          (Except.error HardError.launchFailed, w1)
        else
          let s : SessionState :=
            { browserId := h, lastActivity := env.now, recording := false, recordingPath := none }
          (Except.ok s, { w1 with sessions := mapSet w1.sessions sessionName s })

/-- One `await executeCommand(envelope, session.browser)` call: the
envelope is handed to the engine (logged), and the call either resolves
or rejects as the environment dictates. -/
def execCmd (env : Env) (e : Envelope) (w : World) : Except HardError Unit × World :=
  let w1 := { w with dispatches := w.dispatches ++ [e] }
  if env.engineFails e.action then (Except.error (HardError.dispatchFailed e.action), w1)
  else (Except.ok (), w1)

/-- Number of engine launches performed on behalf of a given name. -/
def countLaunches (name : String) (w : World) : Nat :=
  (w.launches.filter (fun n => n == name)).length

/-- Number of dispatched envelopes bearing a given action tag. -/
def countAction (a : String) (l : List Envelope) : Nat :=
  (l.filter (fun e => e.action == a)).length

/-- A sequence of repeated `getSession` resolutions of one name, each
tick with its own environment (clock reading). -/
def resolveMany (name : String) (cfg : PluginConfig) (envs : List Env) (w : World) : World :=
  envs.foldl (fun acc env => (getSession name cfg env acc).2) w

/-- JavaScript truthiness of a possibly-absent string: `undefined` and
the empty string are falsy. -/
def jsFalsyOpt : Option String → Bool
  | none => true
  | some s => s == ""

/-- `a || b` on possibly-absent strings. -/
def jsOrOpt (a b : Option String) : Option String :=
  if jsFalsyOpt a then b else a

/-- `params.label || defaultLabel`. -/
def jsStrOrD (a : Option String) (d : String) : String :=
  match a with
  | none => d
  | some s => if s == "" then d else s

/-- `String.prototype.replace` with a plain-string pattern replaces only
the first occurrence; Lean's `String.replace` replaces all, so the
JavaScript behaviour is spelled out over the character list. -/
def replaceFirstList (rep pat : List Char) : List Char → List Char
  | [] => []
  | c :: rest =>
      if (c :: rest).take pat.length = pat then rep ++ (c :: rest).drop pat.length
      else c :: replaceFirstList rep pat rest

/-- `s.replace(pat, rep)` for a non-empty plain-string `pat`. -/
def replaceFirst (s pat rep : String) : String :=
  String.mk (replaceFirstList rep.data pat.data s.data)

/-- `String.prototype.split` with a one-character separator. -/
def splitOnChar (c : Char) : List Char → List (List Char)
  | [] => [[]]
  | x :: xs =>
      let r := splitOnChar c xs
      if x = c then [] :: r
      else
        match r with
        | [] => [[x]]
        | h :: t => (x :: h) :: t

/-- `finalPath?.split("/").pop() || "video.webm"` (src/index.ts line 1023). -/
def stopFilename (finalPath : Option String) : String :=
  match finalPath with
  | none => "video.webm"
  | some p =>
      let c := String.mk ((splitOnChar '/' p.data).getLastD [])
      if c == "" then "video.webm" else c

/-- `pluginConfig.gif?.enabled`. -/
def gifEnabled (cfg : PluginConfig) : Bool :=
  match cfg.gif with
  | some g => g.enabled
  | none => false

/-- The URL `uploadToR2` yields: `null` when no S3 client or no r2
configuration is present, the `publicDomain` URL when one is
configured, the `r2.dev` URL otherwise (src/index.ts lines 676-696). -/
def r2Url (cfg : PluginConfig) (env : Env) (remoteName : String) : Option String :=
  if ¬ env.s3Present then none
  else
    match cfg.r2 with
    | none => none
    | some r2 =>
        let key := "agent-browser/" ++ remoteName
        match r2.publicDomain with
        | some d => some ("https://" ++ d ++ "/" ++ key)
        | none => some ("https://" ++ r2.bucket ++ "." ++ r2.accountId ++ ".r2.dev/" ++ key)

/-- `uploadToR2` (src/index.ts lines 671-697).  Every invocation is
recorded in `uploadCalls` with its arguments; the returned URL is
`r2Url`. -/
def uploadToR2 (cfg : PluginConfig) (env : Env) (localPath : Option String)
    (remoteName contentType : String) (w : World) : Option String × World :=
  (r2Url cfg env remoteName,
    { w with uploadCalls := w.uploadCalls ++ [(localPath, remoteName, contentType)] })

/-- The structured payloads the tools serialize into their text result. -/
structure StopPayload where
  localPath : Option String
  remoteUrl : Option String
  frames : Option Nat
  markdown : Option String
deriving DecidableEq

/-- The JSON object each tool invocation returns (the object passed to
`JSON.stringify` inside the single text content block). -/
inductive ToolPayload where
  | errorMsg (msg : String)
  | recStarted (label : String)
  | recStopped (p : StopPayload)
  | closedOk
deriving DecidableEq

/-- `ab_record_start.execute` (src/index.ts lines 962-981): resolve the
session, refuse with the structured `Already recording` payload without
dispatching when a recording is in progress, otherwise dispatch a
`recording_start` envelope carrying the computed artifact path and mark
the session recording. -/
def ab_record_start (sessionName : String) (label : Option String) (cfg : PluginConfig)
    (env : Env) (w : World) : Except HardError ToolPayload × World :=
  match getSession sessionName cfg env w with
  | (Except.error e, w1) => (Except.error e, w1)
  | (Except.ok session, w1) =>
      if session.recording then
        (Except.ok (ToolPayload.errorMsg "Already recording"), w1)
      else
        let lab := jsStrOrD label ("recording-" ++ toString env.now)
        let filename := sessionName ++ "-" ++ lab ++ ".webm"
        let localPath := env.tmpDir ++ "/" ++ filename
        match execCmd env { action := "recording_start", path := some localPath } w1 with
        | (Except.error e, w2) => (Except.error e, w2)
        | (Except.ok _, w2) =>
            let session2 := { session with recording := true, recordingPath := some localPath }
            (Except.ok (ToolPayload.recStarted lab),
              { w2 with sessions := mapSet w2.sessions sessionName session2 })

/-- The tail of `ab_record_stop.execute` after the `recording_stop`
dispatch has resolved and the recording flag has been cleared
(src/index.ts lines 1008-1038): best-effort GIF conversion when
enabled, filename computation, hand-off to the upload collaborator, and
assembly of the returned payload.  `finalPath0` is
`result.data?.path || session.recordingPath`. -/
def stopPostProcess (cfg : PluginConfig) (env : Env) (finalPath0 : Option String)
    (w3 : World) : ToolPayload × World :=
  let step : Option String × String × World :=
    if gifEnabled cfg ∧ ¬ jsFalsyOpt finalPath0 then
      let fp := finalPath0.getD ""
      let gifPath := replaceFirst fp ".webm" ".gif"
      let w4 := { w3 with transcodes := w3.transcodes ++ [(fp, gifPath)] }
      if env.gifOk then (some gifPath, "image/gif", w4)
      else (finalPath0, "video/webm", w4)
    else (finalPath0, "video/webm", w3)
  let finalPath := step.1
  let contentType := step.2.1
  let filename := stopFilename finalPath
  let up := uploadToR2 cfg env finalPath filename contentType step.2.2
  let md :=
    match up.1 with
    | some url =>
        some (if contentType == "image/gif" then
                "![recording](" ++ url ++ ")"
              else "[recording](" ++ url ++ ")")
    | none => none
  (ToolPayload.recStopped
      { localPath := finalPath, remoteUrl := up.1,
        frames := env.stopFrames, markdown := md }, up.2)

/-- `ab_record_stop.execute` (src/index.ts lines 995-1039): resolve the
session, refuse with the structured `Not recording` payload without
dispatching when idle, otherwise dispatch `recording_stop`, clear the
recording flag (the artifact path field is left as it was), and run the
post-processing tail. -/
def ab_record_stop (sessionName : String) (cfg : PluginConfig) (env : Env) (w : World) :
    Except HardError ToolPayload × World :=
  match getSession sessionName cfg env w with
  | (Except.error e, w1) => (Except.error e, w1)
  | (Except.ok session, w1) =>
      if !session.recording then
        (Except.ok (ToolPayload.errorMsg "Not recording"), w1)
      else
        match execCmd env { action := "recording_stop", path := none } w1 with
        | (Except.error e, w2) => (Except.error e, w2)
        | (Except.ok _, w2) =>
            let session2 := { session with recording := false }
            let w3 := { w2 with sessions := mapSet w2.sessions sessionName session2 }
            let sp := stopPostProcess cfg env (jsOrOpt env.stopPath session.recordingPath) w3
            (Except.ok sp.1, sp.2)

/-- `ab_close.execute` (src/index.ts lines 1109-1119): membership is
checked before any dispatch; for a live session the `close` envelope is
dispatched (with no catch around the await), and only when that
dispatch resolves is the registry entry deleted. -/
def ab_close (sessionName : String) (env : Env) (w : World) :
    Except HardError ToolPayload × World :=
  match mapGet w.sessions sessionName with
  | none => (Except.ok (ToolPayload.errorMsg "Session not found"), w)
  | some _ =>
      match execCmd env { action := "close", path := none } w with
      | (Except.error e, w1) => (Except.error e, w1)
      | (Except.ok _, w1) =>
          (Except.ok ToolPayload.closedOk,
            { w1 with sessions := mapDelete w1.sessions sessionName })

/-- One pass of the `for (const [name, session] of sessions)` loop in
the cleanup service's interval callback (src/index.ts lines 1171-1182),
iterating the entries the Map held when the tick began: an expired
entry gets `session.browser.close().catch(() => {})` (a teardown
attempt whose failure is swallowed) and is deleted; others are left
alone. -/
def reapLoop (timeout now : Nat) : List (String × SessionState) → World → World
  | [], w => w
  | (name, s) :: rest, w =>
      if now - s.lastActivity > timeout then
        reapLoop timeout now rest
          { w with sessions := mapDelete w.sessions name,
                   teardowns := w.teardowns ++ [name] }
      else reapLoop timeout now rest w

/-- One tick of the idle-reaper interval callback, at clock reading
`now`, with `pluginConfig.idleTimeoutMs ?? 300000` as the threshold. -/
def reapTick (cfg : PluginConfig) (now : Nat) (w : World) : World :=
  reapLoop (cfg.idleTimeoutMs.getD 300000) now w.sessions w

/-- The cleanup service's `start` hook (src/index.ts lines 1170-1183):
`setInterval(..., 60000)` arms the recurring reap timer.  The interval
handle is discarded — the source stores it nowhere — so nothing later
can disarm it. -/
def serviceStart (w : World) : World :=
  { w with reaperTimerActive := true }

/-- The drain loop of the `stop` hook: for every live session, in
registry order, `await session.browser.close().catch(() => {})` — a
teardown attempt whose individual failure is swallowed, so the loop
always continues to the next session. -/
def drainLoop : List (String × SessionState) → World → World
  | [], w => w
  | (name, _) :: rest, w => drainLoop rest { w with teardowns := w.teardowns ++ [name] }

/-- The cleanup service's `stop` hook (src/index.ts lines 1184-1190):
drain every live session, then `sessions.clear()`.  It contains no
`clearInterval`, so `reaperTimerActive` is untouched. -/
def serviceStop (w : World) : World :=
  let w1 := drainLoop w.sessions w
  { w1 with sessions := [] }

instance exceptDecEq {ε α : Type} [DecidableEq ε] [DecidableEq α] :
    DecidableEq (Except ε α) := fun a b =>
  match a, b with
  | Except.ok x, Except.ok y =>
      if h : x = y then isTrue (by rw [h])
      else isFalse (by intro hc; cases hc; exact h rfl)
  | Except.error x, Except.error y =>
      if h : x = y then isTrue (by rw [h])
      else isFalse (by intro hc; cases hc; exact h rfl)
  | Except.ok _, Except.error _ => isFalse (by intro hc; cases hc)
  | Except.error _, Except.ok _ => isFalse (by intro hc; cases hc)

/-- Where one asynchronous `getSession` caller stands.  The body of
`getSession` runs synchronously from entry up to `await browser.launch`
(the registry lookup, the admission check, and the handle construction
are one uninterruptible segment), then suspends; the continuation
(register the session, stamp `lastActivity`, return) is a second
uninterruptible segment.  `finished` carries the returned session's
engine-handle identity or the thrown error. -/
inductive CallerPhase where
  | ready
  | launching (h : Nat)
  | finished (r : Except HardError Nat)
deriving DecidableEq

/-- One scheduler step of a suspended or not-yet-started `getSession`
call, exactly the two synchronous segments of src/index.ts lines
638-668 split at the `await browser.launch` suspension point. -/
def stepCaller (sessionName : String) (cfg : PluginConfig) (env : Env)
    (ph : CallerPhase) (w : World) : CallerPhase × World :=
  match ph with
  | CallerPhase.ready =>
      match mapGet w.sessions sessionName with
      | some s =>
          let s2 : SessionState := { s with lastActivity := env.now }
          (CallerPhase.finished (Except.ok s.browserId),
            { w with sessions := mapSet w.sessions sessionName s2 })
      | none =>
          if w.sessions.length ≥ maxConc cfg then
            (CallerPhase.finished (Except.error (HardError.maxConcurrent (maxConc cfg))), w)
          else
            let h := w.nextHandle
            (CallerPhase.launching h,
              { w with nextHandle := h + 1, launches := w.launches ++ [sessionName] })
  | CallerPhase.launching h =>
      if env.launchFails then (CallerPhase.finished (Except.error HardError.launchFailed), w)
      else
        let s : SessionState :=
          { browserId := h, lastActivity := env.now, recording := false, recordingPath := none }
        (CallerPhase.finished (Except.ok h),
          { w with sessions := mapSet w.sessions sessionName s })
  | CallerPhase.finished r => (CallerPhase.finished r, w)

/-- Two concurrent `getSession` callers for the same name over the
shared registry. -/
structure RaceState where
  a : CallerPhase
  b : CallerPhase
  w : World
deriving DecidableEq

/-- Schedule one of the two callers (`true` picks the first). -/
def raceStep (sessionName : String) (cfg : PluginConfig) (env : Env)
    (pick : Bool) (st : RaceState) : RaceState :=
  if pick then
    let r := stepCaller sessionName cfg env st.a st.w
    { a := r.1, b := st.b, w := r.2 }
  else
    let r := stepCaller sessionName cfg env st.b st.w
    { a := st.a, b := r.1, w := r.2 }

/-- Run an interleaving of the two callers. -/
def runSched (sessionName : String) (cfg : PluginConfig) (env : Env)
    (sched : List Bool) (st : RaceState) : RaceState :=
  sched.foldl (fun s pick => raceStep sessionName cfg env pick s) st

/-- The state at plugin activation: empty registry, no side effects yet. -/
def emptyWorld : World :=
  { sessions := [], nextHandle := 0, launches := [], dispatches := [],
    teardowns := [], transcodes := [], uploadCalls := [], reaperTimerActive := false }

/-- `api.config` with every recognized option absent (all defaults). -/
def cfgDefault : PluginConfig :=
  { r2 := none, headless := none, viewportWidth := none, viewportHeight := none,
    gif := none, maxConcurrent := none, idleTimeoutMs := none }

/-- `api.config` with GIF conversion enabled. -/
def cfgGif : PluginConfig :=
  { cfgDefault with gif := some { enabled := true } }

/-- A benign environment: clock at 1000, every collaborator succeeds,
no storage configured. -/
def baseEnv : Env :=
  { now := 1000, tmpDir := "/tmp/agent-browser-plugin", engineFails := fun _ => false,
    launchFails := false, stopPath := none, stopFrames := none, gifOk := true,
    s3Present := false }

/-- An environment whose engine rejects the `close` dispatch. -/
def envCloseFail : Env :=
  { baseEnv with engineFails := fun a => a == "close" }

/-- An environment where the ffmpeg GIF conversion exits non-zero. -/
def envGifFail : Env :=
  { baseEnv with gifOk := false }

/-- One live session `s1` (engine handle 0), freshly created. -/
def wOne : World := (getSession "s1" cfgDefault baseEnv emptyWorld).2

/-- Three live sessions `a`, `b`, `c`: the registry at the default cap. -/
def wThree : World :=
  (getSession "c" cfgDefault baseEnv
    ((getSession "b" cfgDefault baseEnv
      ((getSession "a" cfgDefault baseEnv emptyWorld).2)).2)).2

/-- One live session `s` with a recording in progress (started with
label `lab`). -/
def wRec : World :=
  (ab_record_start "s" (some "lab") cfgDefault baseEnv
    ((getSession "s" cfgDefault baseEnv emptyWorld).2)).2

/-- The artifact path `ab_record_start` computes in `wRec`. -/
def recPath : String := "/tmp/agent-browser-plugin/s-lab.webm"

/-- The benign environment with the clock at 0. -/
def envT0 : Env := { baseEnv with now := 0 }

/-- The benign environment with the clock at 400000. -/
def envT4 : Env := { baseEnv with now := 400000 }

/-- Two live sessions: `old` last active at 0, `fresh` at 400000. -/
def wTwoAges : World :=
  (getSession "fresh" cfgDefault envT4 ((getSession "old" cfgDefault envT0 emptyWorld).2)).2

/-- Two callers about to resolve the same unseen name over an empty
registry. -/
def raceInit : RaceState :=
  { a := CallerPhase.ready, b := CallerPhase.ready, w := emptyWorld }

/-- The interleaving check(A), check(B), finish(A), finish(B): both
callers pass the registry lookup and the admission check before either
of them registers. -/
def raceFinal : RaceState :=
  runSched "s" cfgDefault baseEnv [true, false, true, false] raceInit

theorem mapGet_mapSet_self (l : List (String × SessionState)) (k : String) (v : SessionState) :
    mapGet (mapSet l k v) k = some v := by
  induction l with
  | nil => simp [mapSet, mapGet]
  | cons hd tl ih =>
      obtain ⟨k', v'⟩ := hd
      by_cases h : k' = k
      · simp [mapSet, mapGet, h]
      · simp [mapSet, mapGet, h, ih]

theorem mapSet_mapSet (l : List (String × SessionState)) (k : String) (v v' : SessionState) :
    mapSet (mapSet l k v) k v' = mapSet l k v' := by
  induction l with
  | nil => simp [mapSet]
  | cons hd tl ih =>
      obtain ⟨k'', v''⟩ := hd
      by_cases h : k'' = k
      · simp [mapSet, h]
      · simp [mapSet, h, ih]

theorem mapGet_mapDelete_self (l : List (String × SessionState)) (k : String) :
    mapGet (mapDelete l k) k = none := by
  induction l with
  | nil => simp [mapDelete, mapGet]
  | cons hd tl ih =>
      obtain ⟨k', v'⟩ := hd
      by_cases h : k' = k
      · simp [mapDelete, h, ih]
      · simp [mapDelete, mapGet, h, ih]

theorem mapDelete_not_mem (l : List (String × SessionState)) (k : String)
    (h : k ∉ l.map Prod.fst) : mapDelete l k = l := by
  induction l with
  | nil => rfl
  | cons hd tl ih =>
      obtain ⟨k', v'⟩ := hd
      simp only [List.map_cons, List.mem_cons] at h
      push_neg at h
      have hne : ¬ k' = k := fun he => h.1 he.symm
      simp [mapDelete, hne, ih h.2]

theorem mapDelete_append (l1 l2 : List (String × SessionState)) (k : String)
    (h : k ∉ l1.map Prod.fst) :
    mapDelete (l1 ++ l2) k = l1 ++ mapDelete l2 k := by
  induction l1 with
  | nil => simp
  | cons hd tl ih =>
      obtain ⟨k', v'⟩ := hd
      simp only [List.map_cons, List.mem_cons] at h
      push_neg at h
      have hne : ¬ k' = k := fun he => h.1 he.symm
      simp [mapDelete, hne, ih h.2]

theorem getSession_present (name : String) (cfg : PluginConfig) (env : Env) (w : World)
    (s : SessionState) (hs : mapGet w.sessions name = some s) :
    getSession name cfg env w =
      (Except.ok { s with lastActivity := env.now },
        { w with sessions := mapSet w.sessions name { s with lastActivity := env.now } }) := by
  simp [getSession, hs]

theorem getSession_absent_launches (name : String) (cfg : PluginConfig) (env : Env)
    (w : World) (habs : mapGet w.sessions name = none)
    (hcap : w.sessions.length < maxConc cfg) :
    (getSession name cfg env w).2.launches = w.launches ++ [name] := by
  simp only [getSession, habs]
  rw [if_neg (by omega)]
  by_cases hl : env.launchFails <;> simp [hl]

theorem resolveMany_present_launches (name : String) (cfg : PluginConfig) :
    ∀ (envs : List Env) (w : World) (s : SessionState),
      mapGet w.sessions name = some s →
      (resolveMany name cfg envs w).launches = w.launches := by
  intro envs
  induction envs with
  | nil => intro w s _; rfl
  | cons e rest ih =>
      intro w s h
      have hstep := getSession_present name cfg e w s h
      have : resolveMany name cfg (e :: rest) w =
          resolveMany name cfg rest (getSession name cfg e w).2 := rfl
      rw [this, hstep]
      rw [ih _ { s with lastActivity := e.now } (mapGet_mapSet_self _ _ _)]

theorem countAction_append (a : String) (l1 l2 : List Envelope) :
    countAction a (l1 ++ l2) = countAction a l1 + countAction a l2 := by
  simp [countAction, List.filter_append]

theorem record_start_ok (name : String) (label : Option String) (cfg : PluginConfig)
    (env : Env) (w : World) (s : SessionState)
    (hs : mapGet w.sessions name = some s) (hnr : s.recording = false)
    (hef : env.engineFails "recording_start" = false) :
    ab_record_start name label cfg env w =
      (Except.ok (ToolPayload.recStarted (jsStrOrD label ("recording-" ++ toString env.now))),
        { w with
          sessions := mapSet w.sessions name
            { browserId := s.browserId, lastActivity := env.now, recording := true,
              recordingPath := some (env.tmpDir ++ "/" ++
                (name ++ "-" ++ jsStrOrD label ("recording-" ++ toString env.now) ++ ".webm")) },
          dispatches := w.dispatches ++
            [{ action := "recording_start",
               path := some (env.tmpDir ++ "/" ++
                 (name ++ "-" ++ jsStrOrD label ("recording-" ++ toString env.now) ++ ".webm")) }] }) := by
  rw [ab_record_start, getSession_present name cfg env w s hs]
  simp [hnr, execCmd, hef, mapSet_mapSet]

theorem record_stop_main (name : String) (cfg : PluginConfig) (env : Env) (w : World)
    (s : SessionState) (hs : mapGet w.sessions name = some s) (hr : s.recording = true)
    (hef : env.engineFails "recording_stop" = false) :
    ab_record_stop name cfg env w =
      (Except.ok (stopPostProcess cfg env (jsOrOpt env.stopPath s.recordingPath)
          { w with
            sessions := mapSet w.sessions name
              { browserId := s.browserId, lastActivity := env.now, recording := false,
                recordingPath := s.recordingPath },
            dispatches := w.dispatches ++ [{ action := "recording_stop", path := none }] }).1,
        (stopPostProcess cfg env (jsOrOpt env.stopPath s.recordingPath)
          { w with
            sessions := mapSet w.sessions name
              { browserId := s.browserId, lastActivity := env.now, recording := false,
                recordingPath := s.recordingPath },
            dispatches := w.dispatches ++ [{ action := "recording_stop", path := none }] }).2) := by
  rw [ab_record_stop, getSession_present name cfg env w s hs]
  simp [hr, execCmd, hef, mapSet_mapSet]

theorem stopPostProcess_sessions (cfg : PluginConfig) (env : Env) (fp : Option String)
    (w : World) : (stopPostProcess cfg env fp w).2.sessions = w.sessions := by
  unfold stopPostProcess uploadToR2
  by_cases h1 : gifEnabled cfg = true ∧ jsFalsyOpt fp = false
  · by_cases h2 : env.gifOk = true <;> simp [h1, h2]
  · simp [h1]

theorem stopPostProcess_dispatches (cfg : PluginConfig) (env : Env) (fp : Option String)
    (w : World) : (stopPostProcess cfg env fp w).2.dispatches = w.dispatches := by
  unfold stopPostProcess uploadToR2
  by_cases h1 : gifEnabled cfg = true ∧ jsFalsyOpt fp = false
  · by_cases h2 : env.gifOk = true <;> simp [h1, h2]
  · simp [h1]

theorem stopPostProcess_shape (cfg : PluginConfig) (env : Env) (fp : Option String)
    (w : World) : ∃ p, (stopPostProcess cfg env fp w).1 = ToolPayload.recStopped p :=
  ⟨_, rfl⟩

theorem reapLoop_spec (t now : Nat) :
    ∀ (entries pre : List (String × SessionState)) (w : World),
      w.sessions = pre ++ entries →
      ((pre ++ entries).map Prod.fst).Nodup →
      reapLoop t now entries w =
        { w with
          sessions := pre ++ entries.filter (fun p => !decide (now - p.2.lastActivity > t)),
          teardowns := w.teardowns ++
            (entries.filter (fun p => decide (now - p.2.lastActivity > t))).map Prod.fst } := by
  intro entries
  induction entries with
  | nil =>
      intro pre w hw _
      simp only [reapLoop, List.filter_nil, List.append_nil, List.map_nil]
      have hp : pre = w.sessions := by simpa using hw.symm
      subst hp
      rfl
  | cons hd rest ih =>
      intro pre w hw hnd
      obtain ⟨name, s⟩ := hd
      have hmap : ((pre ++ (name, s) :: rest).map Prod.fst) =
          pre.map Prod.fst ++ name :: rest.map Prod.fst := by simp
      rw [hmap] at hnd
      rcases List.nodup_append.mp hnd with ⟨hnp, hnr, hdisj⟩
      have hrest : name ∉ rest.map Prod.fst := (List.nodup_cons.mp hnr).1
      have hpre : name ∉ pre.map Prod.fst := fun hmem => hdisj hmem (List.mem_cons_self _ _)
      by_cases hexp : now - s.lastActivity > t
      · rw [reapLoop, if_pos hexp]
        have hdel : mapDelete w.sessions name = pre ++ rest := by
          rw [hw, mapDelete_append _ _ _ hpre]
          simp [mapDelete, mapDelete_not_mem rest name hrest]
        have hnd2 : ((pre ++ rest).map Prod.fst).Nodup := by
          simp only [List.map_append]
          exact List.nodup_append.mpr
            ⟨hnp, (List.nodup_cons.mp hnr).2,
             fun a ha hb => hdisj ha (List.mem_cons_of_mem _ hb)⟩
        rw [ih pre
          { w with sessions := mapDelete w.sessions name,
                   teardowns := w.teardowns ++ [name] } (by simp [hdel]) hnd2]
        simp [hexp, List.append_assoc]
      · rw [reapLoop, if_neg hexp]
        have hw2 : w.sessions = (pre ++ [(name, s)]) ++ rest := by
          rw [hw, List.append_cons]
        have hnd2 : (((pre ++ [(name, s)]) ++ rest).map Prod.fst).Nodup := by
          rw [← List.append_cons, hmap]
          exact hnd
        rw [ih (pre ++ [(name, s)]) w hw2 hnd2]
        simp [hexp, List.append_assoc]

theorem drainLoop_spec :
    ∀ (entries : List (String × SessionState)) (w : World),
      drainLoop entries w = { w with teardowns := w.teardowns ++ entries.map Prod.fst } := by
  intro entries
  induction entries with
  | nil =>
      intro w
      simp only [drainLoop, List.map_nil, List.append_nil]
  | cons hd rest ih =>
      intro w
      obtain ⟨name, s⟩ := hd
      rw [drainLoop, ih]
      simp [List.append_assoc]

/-- Claim C1: resolving a session name absent from the registry while the
live count is at least `maxConcurrent` (default 3) fails with the
capacity-exceeded hard error carrying the cap, launches no engine
handle, and leaves the whole world — registry mapping, live count,
launch log — unchanged. -/
theorem getSession_capacity_rejects (name : String) (cfg : PluginConfig) (env : Env)
    (w : World) (habs : mapGet w.sessions name = none)
    (hcap : w.sessions.length ≥ maxConc cfg) :
    getSession name cfg env w = (Except.error (HardError.maxConcurrent (maxConc cfg)), w) := by
  simp only [getSession, habs]
  rw [if_pos hcap]

/-- Witness for C1: with `maxConcurrent` unset (default 3) and three
live sessions, resolving the unseen name `d` is rejected with the cap 3
and the world is untouched. -/
theorem getSession_capacity_rejects_witness :
    (mapGet wThree.sessions "d" = none ∧ wThree.sessions.length ≥ maxConc cfgDefault) ∧
      getSession "d" cfgDefault baseEnv wThree =
        (Except.error (HardError.maxConcurrent (maxConc cfgDefault)), wThree) :=
  ⟨⟨by decide, by decide⟩,
    getSession_capacity_rejects "d" cfgDefault baseEnv wThree (by decide) (by decide)⟩

/-- Claim C2: resolving a name already present returns the existing
session with its `lastActivity` stamped to the current clock reading,
launches nothing, and across any further sequence of repeated resolves
of that name the engine-launch count for the name never grows (so it
stays at 1 after the single creation). -/
theorem getSession_existing_reuses (name : String) (cfg : PluginConfig) (env : Env)
    (w : World) (s : SessionState) (envs : List Env)
    (hs : mapGet w.sessions name = some s) :
    (getSession name cfg env w).1 = Except.ok { s with lastActivity := env.now }
    ∧ (getSession name cfg env w).2.launches = w.launches
    ∧ mapGet (getSession name cfg env w).2.sessions name =
        some { s with lastActivity := env.now }
    ∧ countLaunches name (resolveMany name cfg envs (getSession name cfg env w).2) =
        countLaunches name w := by
  rw [getSession_present name cfg env w s hs]
  refine ⟨rfl, rfl, mapGet_mapSet_self _ _ _, ?_⟩
  unfold countLaunches
  rw [resolveMany_present_launches name cfg envs _ { s with lastActivity := env.now }
    (mapGet_mapSet_self _ _ _)]

/-- Witness for C2: resolving the live session `s1` twice more leaves
its launch count at 1 and returns the stored session re-stamped. -/
theorem getSession_existing_reuses_witness :
    (mapGet wOne.sessions "s1" =
      some { browserId := 0, lastActivity := 1000, recording := false, recordingPath := none }) ∧
    ((getSession "s1" cfgDefault baseEnv wOne).1 =
        Except.ok { browserId := 0, lastActivity := 1000, recording := false, recordingPath := none }
      ∧ (getSession "s1" cfgDefault baseEnv wOne).2.launches = wOne.launches
      ∧ mapGet (getSession "s1" cfgDefault baseEnv wOne).2.sessions "s1" =
          some { browserId := 0, lastActivity := 1000, recording := false, recordingPath := none }
      ∧ countLaunches "s1"
          (resolveMany "s1" cfgDefault [baseEnv, baseEnv]
            (getSession "s1" cfgDefault baseEnv wOne).2) =
          countLaunches "s1" wOne) :=
  ⟨by decide,
    getSession_existing_reuses "s1" cfgDefault baseEnv wOne
      { browserId := 0, lastActivity := 1000, recording := false, recordingPath := none }
      [baseEnv, baseEnv] (by decide)⟩

/-- Claim C7: closing a session name with no live registry entry
returns the structured `Session not found` payload and leaves the world
— registry, dispatch log, teardown log — entirely unchanged: membership
is checked before any dispatch. -/
theorem close_unknown_session_noop (name : String) (env : Env) (w : World)
    (habs : mapGet w.sessions name = none) :
    ab_close name env w = (Except.ok (ToolPayload.errorMsg "Session not found"), w) := by
  simp [ab_close, habs]

/-- Witness for C7: closing the unknown name `ghost` over a registry
holding only `s1` is a structured no-op. -/
theorem close_unknown_session_noop_witness :
    (mapGet wOne.sessions "ghost" = none) ∧
      ab_close "ghost" baseEnv wOne =
        (Except.ok (ToolPayload.errorMsg "Session not found"), wOne) :=
  ⟨by decide, close_unknown_session_noop "ghost" baseEnv wOne (by decide)⟩

theorem countAction_single (a : String) (e : Envelope) :
    countAction a [e] = if e.action == a then 1 else 0 := by
  by_cases h : e.action == a <;> simp [countAction, List.filter_singleton, h]

/-- Claim C3: on a live session, `record-start` while recording returns
the structured `Already recording` payload without dispatching
anything; `record-stop` while idle returns the structured
`Not recording` payload without dispatching anything; and a start
followed by a stop dispatches exactly one `recording_start` and exactly
one `recording_stop` envelope. -/
theorem recording_tools_guarded (name : String) (label : Option String)
    (cfg : PluginConfig) (env : Env) (w : World) (s : SessionState)
    (hs : mapGet w.sessions name = some s) :
    (s.recording = true →
      ab_record_start name label cfg env w =
        (Except.ok (ToolPayload.errorMsg "Already recording"), (getSession name cfg env w).2)
      ∧ (ab_record_start name label cfg env w).2.dispatches = w.dispatches)
    ∧ (s.recording = false →
      ab_record_stop name cfg env w =
        (Except.ok (ToolPayload.errorMsg "Not recording"), (getSession name cfg env w).2)
      ∧ (ab_record_stop name cfg env w).2.dispatches = w.dispatches)
    ∧ (s.recording = false → env.engineFails "recording_start" = false →
        env.engineFails "recording_stop" = false →
      countAction "recording_start"
          (ab_record_stop name cfg env (ab_record_start name label cfg env w).2).2.dispatches
        = countAction "recording_start" w.dispatches + 1
      ∧ countAction "recording_stop"
          (ab_record_stop name cfg env (ab_record_start name label cfg env w).2).2.dispatches
        = countAction "recording_stop" w.dispatches + 1) := by
  refine ⟨?_, ?_, ?_⟩
  · intro hrec
    rw [ab_record_start, getSession_present name cfg env w s hs]
    simp [hrec]
  · intro hrec
    rw [ab_record_stop, getSession_present name cfg env w s hs]
    simp [hrec]
  · intro hrec hef1 hef2
    have h1 := record_start_ok name label cfg env w s hs hrec hef1
    have hget : mapGet (ab_record_start name label cfg env w).2.sessions name =
        some { browserId := s.browserId, lastActivity := env.now, recording := true,
               recordingPath := some (env.tmpDir ++ "/" ++
                 (name ++ "-" ++ jsStrOrD label ("recording-" ++ toString env.now) ++ ".webm")) } := by
      rw [h1]
      exact mapGet_mapSet_self _ _ _
    have h2 := record_stop_main name cfg env (ab_record_start name label cfg env w).2
      _ hget rfl hef2
    rw [h2]
    simp only [stopPostProcess_dispatches]
    rw [h1]
    simp only [countAction_append, countAction_single]
    constructor
    · rw [if_pos (by decide), if_neg (by decide)]
    · rw [if_neg (by decide), if_pos (by decide)]

/-- Witness for C3: starting again on the recording session `s` yields
the `Already recording` payload without touching the engine, and a
start-then-stop on the idle session `s1` adds exactly one
`recording_start` dispatch. -/
theorem recording_tools_guarded_witness :
    (mapGet wRec.sessions "s" =
        some { browserId := 0, lastActivity := 1000, recording := true,
               recordingPath := some recPath })
    ∧ ab_record_start "s" none cfgDefault baseEnv wRec =
        (Except.ok (ToolPayload.errorMsg "Already recording"),
          (getSession "s" cfgDefault baseEnv wRec).2)
    ∧ (mapGet wOne.sessions "s1" =
        some { browserId := 0, lastActivity := 1000, recording := false, recordingPath := none })
    ∧ countAction "recording_start"
        (ab_record_stop "s1" cfgDefault baseEnv
          (ab_record_start "s1" none cfgDefault baseEnv wOne).2).2.dispatches
      = countAction "recording_start" wOne.dispatches + 1 :=
  ⟨by decide,
   ((recording_tools_guarded "s" none cfgDefault baseEnv wRec
      { browserId := 0, lastActivity := 1000, recording := true,
        recordingPath := some recPath } (by decide)).1 (by decide)).1,
   by decide,
   ((recording_tools_guarded "s1" none cfgDefault baseEnv wOne
      { browserId := 0, lastActivity := 1000, recording := false, recordingPath := none }
      (by decide)).2.2 (by decide) (by decide) (by decide)).1⟩

/-- Counterexample to claim C4: with a live session `s1` and an engine
whose `close` dispatch rejects, the close operation attempts teardown
(the close envelope is dispatched) but then propagates the error and
leaves the registry entry in place — teardown failures are neither
ignored nor followed by removal. -/
theorem close_teardown_failure_keeps_entry :
    ab_close "s1" envCloseFail wOne =
      (Except.error (HardError.dispatchFailed "close"),
        { wOne with dispatches := wOne.dispatches ++ [{ action := "close", path := none }] })
    ∧ mapGet (ab_close "s1" envCloseFail wOne).2.sessions "s1" =
        some { browserId := 0, lastActivity := 1000, recording := false,
               recordingPath := none } := by
  decide

/-- Claim C4 as amended: for a live session, close always dispatches
the close envelope; when the dispatch resolves, the registry entry is
removed, so a subsequent resolve of the same name (under the cap)
launches a fresh engine handle; when the teardown dispatch rejects,
the error propagates to the caller and the entry is not removed. -/
theorem close_dispatch_then_delete (name : String) (env : Env) (w : World)
    (s : SessionState) (hs : mapGet w.sessions name = some s) :
    (ab_close name env w).2.dispatches = w.dispatches ++ [{ action := "close", path := none }]
    ∧ (env.engineFails "close" = false →
        ab_close name env w =
          (Except.ok ToolPayload.closedOk,
            { w with sessions := mapDelete w.sessions name,
                     dispatches := w.dispatches ++ [{ action := "close", path := none }] })
        ∧ mapGet (ab_close name env w).2.sessions name = none
        ∧ ∀ cfg env2, (ab_close name env w).2.sessions.length < maxConc cfg →
            (getSession name cfg env2 (ab_close name env w).2).2.launches =
              (ab_close name env w).2.launches ++ [name])
    ∧ (env.engineFails "close" = true →
        (ab_close name env w).1 = Except.error (HardError.dispatchFailed "close")
        ∧ mapGet (ab_close name env w).2.sessions name = some s) := by
  by_cases hef : env.engineFails "close" = true
  · refine ⟨by simp [ab_close, hs, execCmd, hef], ?_, ?_⟩
    · intro hc
      rw [hc] at hef
      exact absurd hef (by simp)
    · intro _
      constructor
      · simp [ab_close, hs, execCmd, hef]
      · simp [ab_close, hs, execCmd, hef]
  · have hef' : env.engineFails "close" = false := by simpa using hef
    have hworld : ab_close name env w =
        (Except.ok ToolPayload.closedOk,
          { w with sessions := mapDelete w.sessions name,
                   dispatches := w.dispatches ++ [{ action := "close", path := none }] }) := by
      simp [ab_close, hs, execCmd, hef']
    refine ⟨by rw [hworld], ?_, ?_⟩
    · intro _
      refine ⟨hworld, ?_, ?_⟩
      · rw [hworld]
        exact mapGet_mapDelete_self _ _
      · intro cfg env2 hlen
        rw [hworld] at hlen ⊢
        exact getSession_absent_launches name cfg env2 _ (mapGet_mapDelete_self _ _) hlen
    · intro hc
      rw [hc] at hef'
      exact absurd hef' (by simp)

/-- Witness for C4's amended claim: closing the live session `s1` with
a well-behaved engine dispatches the close envelope, empties its
registry slot, and a follow-up resolve launches a fresh handle. -/
theorem close_dispatch_then_delete_witness :
    (mapGet wOne.sessions "s1" =
        some { browserId := 0, lastActivity := 1000, recording := false, recordingPath := none })
    ∧ (ab_close "s1" baseEnv wOne).2.dispatches =
        wOne.dispatches ++ [{ action := "close", path := none }]
    ∧ mapGet (ab_close "s1" baseEnv wOne).2.sessions "s1" = none
    ∧ (getSession "s1" cfgDefault baseEnv (ab_close "s1" baseEnv wOne).2).2.launches =
        (ab_close "s1" baseEnv wOne).2.launches ++ ["s1"] :=
  ⟨by decide,
   (close_dispatch_then_delete "s1" baseEnv wOne
      { browserId := 0, lastActivity := 1000, recording := false, recordingPath := none }
      (by decide)).1,
   ((close_dispatch_then_delete "s1" baseEnv wOne
      { browserId := 0, lastActivity := 1000, recording := false, recordingPath := none }
      (by decide)).2.1 (by decide)).2.1,
   ((close_dispatch_then_delete "s1" baseEnv wOne
      { browserId := 0, lastActivity := 1000, recording := false, recordingPath := none }
      (by decide)).2.1 (by decide)).2.2 cfgDefault baseEnv (by decide)⟩

/-- Counterexample to claim C5: a successful record-stop on the
recording session `s` leaves `recording = false` but keeps
`recordingPath` set to the artifact path — the field is never cleared,
so the path-present-iff-Recording invariant fails right after the
first stop. -/
theorem record_stop_retains_path :
    mapGet (ab_record_stop "s" cfgDefault baseEnv wRec).2.sessions "s" =
      some { browserId := 0, lastActivity := 1000, recording := false,
             recordingPath := some recPath }
    ∧ (ab_record_stop "s" cfgDefault baseEnv wRec).1 =
        Except.ok (ToolPayload.recStopped
          { localPath := some recPath, remoteUrl := none,
            frames := none, markdown := none }) := by
  decide

/-- Claim C5 as amended: the artifact path field is set whenever a
recording is started, but a successful record-stop only clears the
recording flag and retains the path set at start; so after a stop the
session has `recording = false` with `recordingPath` still present. -/
theorem record_stop_clears_flag_keeps_path (name : String) (cfg : PluginConfig)
    (env : Env) (w : World) (s : SessionState)
    (hs : mapGet w.sessions name = some s) (hrec : s.recording = true)
    (hef : env.engineFails "recording_stop" = false) :
    (∃ p, (ab_record_stop name cfg env w).1 = Except.ok (ToolPayload.recStopped p))
    ∧ mapGet (ab_record_stop name cfg env w).2.sessions name =
        some { browserId := s.browserId, lastActivity := env.now, recording := false,
               recordingPath := s.recordingPath } := by
  rw [record_stop_main name cfg env w s hs hrec hef]
  constructor
  · obtain ⟨p, hp⟩ := stopPostProcess_shape cfg env (jsOrOpt env.stopPath s.recordingPath)
      { w with
        sessions := mapSet w.sessions name
          { browserId := s.browserId, lastActivity := env.now, recording := false,
            recordingPath := s.recordingPath },
        dispatches := w.dispatches ++ [{ action := "recording_stop", path := none }] }
    exact ⟨p, by simp [hp]⟩
  · rw [stopPostProcess_sessions]
    exact mapGet_mapSet_self _ _ _

/-- Witness for C5's amended claim: stopping the recording session `s`
succeeds and stores `recording = false` with the start-time path
retained. -/
theorem record_stop_clears_flag_keeps_path_witness :
    (mapGet wRec.sessions "s" =
        some { browserId := 0, lastActivity := 1000, recording := true,
               recordingPath := some recPath })
    ∧ ((∃ p, (ab_record_stop "s" cfgDefault baseEnv wRec).1 =
          Except.ok (ToolPayload.recStopped p))
      ∧ mapGet (ab_record_stop "s" cfgDefault baseEnv wRec).2.sessions "s" =
          some { browserId := 0, lastActivity := 1000, recording := false,
                 recordingPath := some recPath }) :=
  ⟨by decide,
   record_stop_clears_flag_keeps_path "s" cfgDefault baseEnv wRec
      { browserId := 0, lastActivity := 1000, recording := true,
        recordingPath := some recPath } (by decide) (by decide) (by decide)⟩

/-- Claim C6: one idle-reaper tick at clock reading `now` removes
exactly the sessions whose idle time strictly exceeds
`idleTimeoutMs ?? 300000`, appending exactly one teardown attempt per
removed session, and leaves every other session — and every other
component of the world — untouched. -/
theorem reapTick_evicts_exactly_expired (cfg : PluginConfig) (now : Nat) (w : World)
    (hnd : (w.sessions.map Prod.fst).Nodup) :
    reapTick cfg now w =
      { w with
        sessions := w.sessions.filter
          (fun p => !decide (now - p.2.lastActivity > cfg.idleTimeoutMs.getD 300000)),
        teardowns := w.teardowns ++
          (w.sessions.filter
            (fun p => decide (now - p.2.lastActivity > cfg.idleTimeoutMs.getD 300000))).map
            Prod.fst } := by
  have h := reapLoop_spec (cfg.idleTimeoutMs.getD 300000) now w.sessions [] w (by simp)
    (by simpa using hnd)
  rw [reapTick, h]
  simp

/-- Witness for C6: at clock 400001 with the default 300000ms
threshold, the tick reaps `old` (idle 400001) exactly once and leaves
`fresh` (idle 1) untouched. -/
theorem reapTick_evicts_exactly_expired_witness :
    ((wTwoAges.sessions.map Prod.fst).Nodup)
    ∧ reapTick cfgDefault 400001 wTwoAges =
        { wTwoAges with
          sessions := wTwoAges.sessions.filter
            (fun p => !decide (400001 - p.2.lastActivity > cfgDefault.idleTimeoutMs.getD 300000)),
          teardowns := wTwoAges.teardowns ++
            (wTwoAges.sessions.filter
              (fun p => decide (400001 - p.2.lastActivity > cfgDefault.idleTimeoutMs.getD 300000))).map
              Prod.fst }
    ∧ (reapTick cfgDefault 400001 wTwoAges).sessions =
        [("fresh", { browserId := 1, lastActivity := 400000, recording := false,
                     recordingPath := none })]
    ∧ (reapTick cfgDefault 400001 wTwoAges).teardowns = ["old"] :=
  ⟨by decide,
   reapTick_evicts_exactly_expired cfgDefault 400001 wTwoAges (by decide),
   by decide, by decide⟩

theorem stopPostProcess_gif_fail (cfg : PluginConfig) (env : Env) (fp : Option String)
    (w : World) (hgif : gifEnabled cfg = true) (hfp : jsFalsyOpt fp = false)
    (hfail : env.gifOk = false) :
    stopPostProcess cfg env fp w =
      (ToolPayload.recStopped
        { localPath := fp,
          remoteUrl := r2Url cfg env (stopFilename fp),
          frames := env.stopFrames,
          markdown :=
            match r2Url cfg env (stopFilename fp) with
            | some url => some ("[recording](" ++ url ++ ")")
            | none => none },
       { w with
         transcodes := w.transcodes ++
           [(fp.getD "", replaceFirst (fp.getD "") ".webm" ".gif")],
         uploadCalls := w.uploadCalls ++
           [(fp, stopFilename fp, "video/webm")] }) := by
  have hb : (("video/webm" : String) == "image/gif") = false := by decide
  unfold stopPostProcess uploadToR2
  simp [hgif, hfp, hfail, hb]

/-- Claim C8: with GIF conversion enabled and a transcoder that fails
(non-zero exit), record-stop does not fail: it attempts the conversion
(logged in `transcodes`), keeps the original untranscoded `.webm`
artifact as the returned `localPath`, and the upload is attempted on
that original artifact with content type still `video/webm`. -/
theorem record_stop_gif_failure_best_effort (name : String) (cfg : PluginConfig)
    (env : Env) (w : World) (s : SessionState)
    (hs : mapGet w.sessions name = some s) (hrec : s.recording = true)
    (hef : env.engineFails "recording_stop" = false)
    (hgif : gifEnabled cfg = true)
    (hfp : jsFalsyOpt (jsOrOpt env.stopPath s.recordingPath) = false)
    (hfail : env.gifOk = false) :
    (∃ p, (ab_record_stop name cfg env w).1 = Except.ok (ToolPayload.recStopped p)
      ∧ p.localPath = jsOrOpt env.stopPath s.recordingPath)
    ∧ (ab_record_stop name cfg env w).2.transcodes =
        w.transcodes ++ [((jsOrOpt env.stopPath s.recordingPath).getD "",
          replaceFirst ((jsOrOpt env.stopPath s.recordingPath).getD "") ".webm" ".gif")]
    ∧ (ab_record_stop name cfg env w).2.uploadCalls =
        w.uploadCalls ++ [(jsOrOpt env.stopPath s.recordingPath,
          stopFilename (jsOrOpt env.stopPath s.recordingPath), "video/webm")] := by
  rw [record_stop_main name cfg env w s hs hrec hef,
      stopPostProcess_gif_fail cfg env (jsOrOpt env.stopPath s.recordingPath) _ hgif hfp hfail]
  refine ⟨⟨_, rfl, rfl⟩, by simp, by simp⟩

/-- Witness for C8: stopping the recording session `s` with GIF
conversion enabled and a failing transcoder still succeeds, returns
the original `.webm` artifact, and hands that artifact to the upload
collaborator as `video/webm`. -/
theorem record_stop_gif_failure_best_effort_witness :
    (mapGet wRec.sessions "s" =
        some { browserId := 0, lastActivity := 1000, recording := true,
               recordingPath := some recPath }
      ∧ gifEnabled cfgGif = true ∧ envGifFail.gifOk = false)
    ∧ ((∃ p, (ab_record_stop "s" cfgGif envGifFail wRec).1 =
            Except.ok (ToolPayload.recStopped p)
          ∧ p.localPath = jsOrOpt envGifFail.stopPath (some recPath))
      ∧ (ab_record_stop "s" cfgGif envGifFail wRec).2.transcodes =
          wRec.transcodes ++ [((jsOrOpt envGifFail.stopPath (some recPath)).getD "",
            replaceFirst ((jsOrOpt envGifFail.stopPath (some recPath)).getD "") ".webm" ".gif")]
      ∧ (ab_record_stop "s" cfgGif envGifFail wRec).2.uploadCalls =
          wRec.uploadCalls ++ [(jsOrOpt envGifFail.stopPath (some recPath),
            stopFilename (jsOrOpt envGifFail.stopPath (some recPath)), "video/webm")]) :=
  ⟨⟨by decide, by decide, by decide⟩,
   record_stop_gif_failure_best_effort "s" cfgGif envGifFail wRec
      { browserId := 0, lastActivity := 1000, recording := true,
        recordingPath := some recPath }
      (by decide) (by decide) (by decide) (by decide) (by decide) (by decide)⟩

/-- Counterexample to claim C9: the stop hook never stops the idle
reaper's recurring timer — after `start` armed it and `stop` drained
the registry, the timer is still armed (the source discards the
`setInterval` handle and contains no `clearInterval`), so a reap tick
can still run afterwards. -/
theorem serviceStop_leaves_timer_armed :
    (serviceStart wOne).reaperTimerActive = true
    ∧ (serviceStop (serviceStart wOne)).reaperTimerActive = true
    ∧ (serviceStop (serviceStart wOne)).sessions = [] := by
  decide

/-- Claim C9 as amended: the shutdown stop hook drains every live
session — one teardown attempt per session, in registry order,
individual failures swallowed so the drain always continues — and
leaves the registry with zero entries; it does not stop the idle
reaper's recurring timer (every other component of the world,
`reaperTimerActive` included, is unchanged). -/
theorem serviceStop_drains_all (w : World) :
    serviceStop w =
      { w with sessions := [], teardowns := w.teardowns ++ w.sessions.map Prod.fst } := by
  rw [serviceStop, drainLoop_spec]

/-- Claim C10 refuted (code bug): under the interleaving
check(A), check(B), finish(A), finish(B) of two concurrent resolves of
the unseen name `s`, both callers pass the registry lookup and the
admission check before either registers, so two engine handles are
constructed for the one name; caller B's registration then overwrites
caller A's, orphaning handle 0 while A still holds it. -/
theorem race_double_launch :
    raceFinal.w.launches = ["s", "s"]
    ∧ countLaunches "s" raceFinal.w = 2
    ∧ raceFinal.a = CallerPhase.finished (Except.ok 0)
    ∧ raceFinal.b = CallerPhase.finished (Except.ok 1)
    ∧ mapGet raceFinal.w.sessions "s" =
        some { browserId := 1, lastActivity := 1000, recording := false,
               recordingPath := none } := by
  decide

end AgentBrowser
